import Mathlib

/-!
Shallow embedding of the Swadeshi voice-translator backend (src/main.py).

The embedding models the per-connection WebSocket pipeline `translate_ws`
(lines 85-171), the process-wide session registry `connected_devices`,
the static `language_map` (lines 40-66), the temporary-file handling of
the speech-to-text step (lines 108-127) and the REST endpoint
`translate_only` (lines 191-204).  External adapters (speech recognition,
googletrans, gTTS, pydub) are modelled as oracles supplying one outcome
per invocation; the runtime-loaded set `supported_langs` (line 24,
`set(LANGUAGES.keys())` of the googletrans library) is an explicit
parameter.  WebSocket handles are opaque naturals; every outbound send of
the pipeline is recorded as an `Event` carrying the handle it targets.
-/

/-! ## Python `str.replace` -/

/-- Fuel-indexed worker for Python `str.replace`: scans left to right,
replacing each non-overlapping occurrence of `pat` by `rep`.  The fuel is
set to the length of the scanned list, which is always sufficient. -/
def py_replace_aux : Nat → List Char → List Char → List Char → List Char
  | 0, s, _, _ => s
  | _ + 1, [], _, _ => []
  | fuel + 1, c :: rest, pat, rep =>
    if pat ≠ [] ∧ pat.isPrefixOf (c :: rest) then
      rep ++ py_replace_aux fuel ((c :: rest).drop pat.length) pat rep
    else
      c :: py_replace_aux fuel rest pat rep

/-- Python `s.replace(pat, rep)` for a non-empty pattern. -/
def py_str_replace (s pat rep : String) : String :=
  String.mk (py_replace_aux s.data.length s.data pat.data rep.data)

/-- Line 87 of src/main.py: `device_id = device_id.replace(" ", "_")`. -/
def sanitize_device_id (raw : String) : String :=
  py_str_replace raw " " "_"

/-! ## Python `dict` operations (string-keyed) -/

/-- Python `d.get(k)` / `d[k]`: first (and, under the dict invariant of
key-unique entries, only) value stored under key `k`. -/
def dict_lookup {β : Type} : List (String × β) → String → Option β
  | [], _ => none
  | (k, v) :: rest, q => if k = q then some v else dict_lookup rest q

/-- Python `d[k] = v`: replace the value of the entry holding key `k` in
place, or append a new entry when the key is absent. -/
def dict_set {β : Type} : List (String × β) → String → β → List (String × β)
  | [], q, v => [(q, v)]
  | (k, w) :: rest, q, v =>
    if k = q then (k, v) :: rest else (k, w) :: dict_set rest q v

/-- Python `d.pop(k, None)`: drop the entry holding key `k` when present,
otherwise leave the dict unchanged. -/
def dict_pop {β : Type} : List (String × β) → String → List (String × β)
  | [], _ => []
  | (k, v) :: rest, q => if k = q then rest else (k, v) :: dict_pop rest q

/-- The keys of a dict, in order. -/
def dict_keys {β : Type} (l : List (String × β)) : List String :=
  l.map Prod.fst

/-! ## Language map (src/main.py lines 40-66) -/

/-- The default profile used by every `language_map.get(_, default)` call
in src/main.py: `("hi-IN", "hi", "hi")`. -/
def default_profile : String × String × String :=
  ("hi-IN", "hi", "hi")

/-- src/main.py lines 40-66: display name to
(recognition locale, gTTS language, translation code). -/
def language_map : List (String × (String × String × String)) :=
  [ ("Hindi", ("hi-IN", "hi", "hi"))
  , ("English", ("en-IN", "en", "en"))
  , ("Tamil", ("ta-IN", "ta", "ta"))
  , ("Telugu", ("te-IN", "te", "te"))
  , ("Bengali", ("bn-IN", "bn", "bn"))
  , ("Urdu", ("ur-IN", "ur", "ur"))
  , ("Marathi", ("mr-IN", "mr", "mr"))
  , ("Gujarati", ("gu-IN", "gu", "gu"))
  , ("Kannada", ("kn-IN", "kn", "kn"))
  , ("Malayalam", ("ml-IN", "ml", "ml"))
  , ("Punjabi", ("pa-IN", "pa", "pa"))
  , ("Assamese", ("as-IN", "as", "as"))
  , ("Odia", ("or-IN", "or", "or"))
  , ("Bhojpuri", ("hi-IN", "hi", "bho"))
  , ("Maithili", ("hi-IN", "hi", "mai"))
  , ("Chhattisgarhi", ("hi-IN", "hi", "hne"))
  , ("Rajasthani", ("hi-IN", "hi", "raj"))
  , ("Konkani", ("hi-IN", "hi", "kok"))
  , ("Dogri", ("hi-IN", "hi", "doi"))
  , ("Kashmiri", ("hi-IN", "hi", "ks"))
  , ("Santhali", ("hi-IN", "hi", "sat"))
  , ("Sindhi", ("hi-IN", "hi", "sd"))
  , ("Manipuri", ("hi-IN", "hi", "mni"))
  , ("Bodo", ("hi-IN", "hi", "brx"))
  , ("Sanskrit", ("sa-IN", "hi", "sa"))
  ]

/-- `language_map.get(name, ("hi-IN", "hi", "hi"))` as used at lines
91-92 and 193-194 of src/main.py. -/
def language_map_get (name : String) : String × String × String :=
  (dict_lookup language_map name).getD default_profile

/-! ## Pipeline events and state -/

/-- The distinct plain-text error notices sent by `translate_ws`, one per
`send_text` call site (lines 122, 136, 139, 142, 156, 167). -/
inductive Notice
  | sttFailed (e : String)
  | unsupportedType
  | invalidJson
  | unknownFormat
  | translationFailed (e : String)
  | ttsFailed (e : String)
deriving DecidableEq

/-- What a `send_text` carries: a category-prefixed notice, the fallback
warning of line 149, or the structured translated-text acknowledgment of
line 154. -/
inductive Payload
  | notice (n : Notice)
  | fallbackWarn
  | textAck (translated : String)
deriving DecidableEq

/-- One outbound delivery: `send_text` or `send_bytes` on the connection
handle `dst`. -/
inductive Event
  | sendText (dst : Nat) (p : Payload)
  | sendBytes (dst : Nat) (b : List Nat)
deriving DecidableEq

/-- The per-connection variables mutated by the loop body of
`translate_ws` (lines 145-148): `src_code`, `tgt_code`, `tgt_tts_lang`. -/
structure PipeState where
  srcCode : String
  tgtCode : String
  tgtTts : String
deriving DecidableEq

/-- Result of one loop iteration: continue with an updated state, or exit
by an uncaught exception (which also ends the session). -/
inductive StepResult
  | cont (st : PipeState) (events : List Event)
  | crash (events : List Event)
deriving DecidableEq

/-- Events emitted during the iteration. -/
def StepResult.events : StepResult → List Event
  | .cont _ es => es
  | .crash es => es

/-- The state after the iteration, when the loop survives it. -/
def StepResult.state : StepResult → Option PipeState
  | .cont st _ => some st
  | .crash _ => none

/-! ## Inbound frames and their decoding -/

/-- Outcome of the speech-to-text block for one binary frame (lines
110-127): the pydub export raises, the recognizer raises, or a text is
recognized.  Any raise is reported as one `sttFailed` notice. -/
inductive DecodeOutcome
  | exportFail (e : String)
  | recognizeFail (e : String)
  | ok (text : String)
deriving DecidableEq

/-- The shapes `json.loads(msg["text"])` can produce at line 131:
a `JSONDecodeError`, a non-object JSON value (on which `.get` raises
`AttributeError`), or an object with optional `type` and `data` string
fields. -/
inductive TextParse
  | invalid
  | nonObject
  | object (ty : Option String) (data : Option String)
deriving DecidableEq

/-- One received frame, as discriminated at lines 108, 129, 141. -/
inductive Frame
  | binary (audio : List Nat)
  | text (parsed : TextParse)
  | other
deriving DecidableEq

/-- How the first half of the loop body ends: with a recognized/parsed
text, with a notice-and-continue, or with an uncaught exception. -/
inductive TextResult
  | crash
  | reply (n : Notice)
  | got (text : String)
deriving DecidableEq

/-- Lines 108-143 of src/main.py: obtain the utterance text from a frame.
A binary frame runs the speech-to-text block whose failures all land in
the `except` of line 121.  A text frame is parsed as JSON: a decode error
is caught at line 138; a non-object payload raises an uncaught
`AttributeError` at `payload.get`; an object whose `type` is not the
string `"text"` gets the unsupported-type notice; an object of type
`"text"` without a `"data"` key raises an uncaught `KeyError` at line
133.  Any other frame gets the unknown-format notice. -/
def frame_text : Frame → DecodeOutcome → TextResult
  | .binary _, .exportFail e => .reply (.sttFailed e)
  | .binary _, .recognizeFail e => .reply (.sttFailed e)
  | .binary _, .ok t => .got t
  | .text .invalid, _ => .reply .invalidJson
  | .text .nonObject, _ => .crash
  | .text (.object ty data), _ =>
    if ty = some "text" then
      match data with
      | some d => .got d
      | none => .crash
    else .reply .unsupportedType
  | .other, _ => .reply .unknownFormat

/-! ## The per-message pipeline (src/main.py lines 98-167) -/

/-- Per-message behaviour of the external adapters: the outcome of the
speech-to-text block for a binary frame, the googletrans call
(text, src, dest, giving the `.text` of the result or the raised
message), and the gTTS call (text, lang, giving the synthesized bytes or
the raised message). -/
structure Oracle where
  decode : DecodeOutcome
  translate : String → String → String → Except String String
  tts : String → String → Except String (List Nat)

/-- Line 145-146: `if src_code not in supported_langs: src_code = "hi"`. -/
def resolve_src_code (supported_langs : List String) (src_code : String) : String :=
  if src_code ∈ supported_langs then src_code else "hi"

/-- Lines 147-149: when `tgt_code` is unsupported, force
`tgt_code, tgt_tts_lang = "hi", "hi"`; the `Bool` records whether the
branch (and so its fallback warning) was taken. -/
def resolve_tgt (supported_langs : List String) (tgt_code tgt_tts : String) :
    String × String × Bool :=
  if tgt_code ∈ supported_langs then (tgt_code, tgt_tts, false) else ("hi", "hi", true)

/-- Lines 145-167 of src/main.py: the part of the loop body that runs
once an utterance text is in hand.  Applies the translation-code
fallback (sending the warning of line 149 when the target side falls
back), calls the translator, sends the structured acknowledgment of line
154 on success, then synthesizes and sends the audio bytes back on the
same connection `self`, reporting failures of either stage as notices. -/
def after_text (supported_langs : List String) (self : Nat) (st : PipeState)
    (text : String) (oracle : Oracle) : StepResult :=
  let src_code := resolve_src_code supported_langs st.srcCode
  let tr := resolve_tgt supported_langs st.tgtCode st.tgtTts
  let warn_events : List Event :=
    if tr.2.2 then [Event.sendText self Payload.fallbackWarn] else []
  let st' : PipeState := ⟨src_code, tr.1, tr.2.1⟩
  match oracle.translate text src_code tr.1 with
  | Except.error e =>
    StepResult.cont st' (warn_events ++ [Event.sendText self (Payload.notice (Notice.translationFailed e))])
  | Except.ok translated =>
    match oracle.tts translated tr.2.1 with
    | Except.error e =>
      StepResult.cont st' (warn_events ++
        [Event.sendText self (Payload.textAck translated),
         Event.sendText self (Payload.notice (Notice.ttsFailed e))])
    | Except.ok audio_bytes =>
      StepResult.cont st' (warn_events ++
        [Event.sendText self (Payload.textAck translated),
         Event.sendBytes self audio_bytes])

/-- One iteration of the receive loop of `translate_ws` (lines 98-167)
for the frame `frame`, on the connection with handle `self`.  The
registry `connected_devices` is neither read nor written by the loop
body, so it does not appear here. -/
def translate_ws_step (supported_langs : List String) (self : Nat) (st : PipeState)
    (frame : Frame) (oracle : Oracle) : StepResult :=
  match frame_text frame oracle.decode with
  | .crash => StepResult.crash []
  | .reply n => StepResult.cont st [Event.sendText self (Payload.notice n)]
  | .got text => after_text supported_langs self st text oracle

/-! ## Session lifecycle (src/main.py lines 86-95 and 169-171) -/

/-- The per-session values fixed at accept time. -/
structure SessionInit where
  deviceId : String
  srcLocale : String
  st : PipeState
deriving DecidableEq

/-- Lines 86-95 of src/main.py: sanitize the device id, resolve both
language profiles with the silent Hindi default, and store the handle in
`connected_devices` under the sanitized key.  No message is sent to any
connection during this phase, which the empty event list records. -/
def translate_ws_accept (reg : List (String × Nat)) (src tgt raw_device_id : String)
    (handle : Nat) : List (String × Nat) × SessionInit × List Event :=
  let deviceId := sanitize_device_id raw_device_id
  let p1 := language_map_get src
  let p2 := language_map_get tgt
  (dict_set reg deviceId handle,
   ⟨deviceId, p1.1, ⟨p1.2.2, p2.2.2, p2.2.1⟩⟩,
   [])

/-- Lines 169-171 of src/main.py: the `finally` block of `translate_ws`,
run on every exit of the receive loop:
`connected_devices.pop(device_id, None)`. -/
def translate_ws_cleanup (reg : List (String × Nat)) (deviceId : String) :
    List (String × Nat) :=
  dict_pop reg deviceId

/-! ## Temporary files of the speech-to-text block (lines 110-127) -/

/-- Creating a file: the path is added to the file system when absent. -/
def fs_create (fs : List String) (p : String) : List String :=
  if p ∈ fs then fs else p :: fs

/-- Removing the first entry equal to `q`. -/
def fs_delete : List String → String → List String
  | [], _ => []
  | p :: rest, q => if p = q then rest else p :: fs_delete rest q

/-- Python `os.remove(p)`: deletes the file, or raises (`none`) when it
does not exist. -/
def os_remove (fs : List String) (p : String) : Option (List String) :=
  if p ∈ fs then some (fs_delete fs p) else none

/-- Lines 124-127 of src/main.py: the `finally` block removes the two
temporary paths inside a single `with suppress(Exception)` scope, so a
raise of the first `os.remove` skips the second. -/
def remove_temp_files (fs : List String) (webm wav : String) : List String :=
  match os_remove fs webm with
  | none => fs
  | some fs1 =>
    match os_remove fs1 wav with
    | none => fs1
    | some fs2 => fs2

/-- Line 113 of src/main.py: `wav_path = webm_path.replace(".webm", ".wav")`. -/
def wav_path_of (webm : String) : String :=
  py_str_replace webm ".webm" ".wav"

/-- File-system effect of the binary-frame block, lines 110-127: the
`.webm` container is written first; the `.wav` file exists once the
pydub export succeeds; the `finally` block then attempts to remove
both paths on every exit. -/
def stt_step_fs (fs : List String) (webm : String) (outcome : DecodeOutcome) :
    List String :=
  let fs1 := fs_create fs webm
  let wav := wav_path_of webm
  let fs2 :=
    match outcome with
    | .exportFail _ => fs1
    | .recognizeFail _ => fs_create fs1 wav
    | .ok _ => fs_create fs1 wav
  remove_temp_files fs2 webm wav

/-! ## REST endpoint `translate_only` (src/main.py lines 191-204) -/

/-- The JSON value returned by `translate_only`: either a
`translated_text` field or an `error` field, always a value. -/
inductive RestResponse
  | success (translated_text : String)
  | failure (error : String)
deriving DecidableEq

/-- Lines 191-204 of src/main.py: resolve both display names through
`language_map.get` with the Hindi default, force unsupported translation
codes to `"hi"`, call the translator, and wrap either outcome in a
response value (the `except` at line 203 turns any raise into the
`error` field). -/
def translate_only (supported_langs : List String)
    (translate : String → String → String → Except String String)
    (text source_lang target_lang : String) : RestResponse :=
  let src_code0 := (language_map_get source_lang).2.2
  let tgt_code0 := (language_map_get target_lang).2.2
  let src_code := if src_code0 ∈ supported_langs then src_code0 else "hi"
  let tgt_code := if tgt_code0 ∈ supported_langs then tgt_code0 else "hi"
  match translate text src_code tgt_code with
  | Except.ok t => RestResponse.success t
  | Except.error e => RestResponse.failure ("Translation failed: " ++ e)

/-! ## Observation helpers for the stated properties -/

/-- The handles that receive a binary (audio) delivery in a trace. -/
def audio_targets (events : List Event) : List Nat :=
  events.filterMap (fun e =>
    match e with
    | Event.sendBytes dst _ => some dst
    | _ => none)

/-- Scans a trace and checks that every binary delivery is preceded by
some earlier structured text acknowledgment; `seen` records whether an
acknowledgment has occurred so far. -/
def ack_seen_scan : Bool → List Event → Bool
  | _, [] => true
  | seen, Event.sendBytes _ _ :: rest => seen && ack_seen_scan seen rest
  | _, Event.sendText _ (Payload.textAck _) :: rest => ack_seen_scan true rest
  | seen, _ :: rest => ack_seen_scan seen rest

/-- A concrete adapter behaviour used to instantiate the theorems:
recognition yields "hello", translation echoes its input, synthesis
yields the byte `0`. -/
def demo_oracle : Oracle :=
  { decode := DecodeOutcome.ok "hello"
  , translate := fun t _ _ => Except.ok t
  , tts := fun _ _ => Except.ok [0] }

/-! ## Helper lemmas about the dict operations -/

theorem dict_lookup_set_self {β : Type} (l : List (String × β)) (q : String) (v : β) :
    dict_lookup (dict_set l q v) q = some v := by
  induction l with
  | nil => simp [dict_set, dict_lookup]
  | cons e rest ih =>
    obtain ⟨k, w⟩ := e
    by_cases hk : k = q
    · subst hk
      simp [dict_set, dict_lookup]
    · simp [dict_set, dict_lookup, hk, ih]

theorem dict_lookup_not_mem {β : Type} (l : List (String × β)) (q : String) :
    q ∉ dict_keys l → dict_lookup l q = none := by
  induction l with
  | nil => intro _; rfl
  | cons e rest ih =>
    obtain ⟨k, w⟩ := e
    intro h
    simp only [dict_keys, List.map_cons, List.mem_cons, not_or] at h
    have hk : ¬ k = q := fun hkq => h.1 hkq.symm
    simp only [dict_lookup, if_neg hk]
    exact ih (by simpa [dict_keys] using h.2)

theorem dict_keys_cons {β : Type} (k : String) (w : β) (rest : List (String × β)) :
    dict_keys ((k, w) :: rest) = k :: dict_keys rest := rfl

theorem dict_keys_set {β : Type} (l : List (String × β)) (q : String) (v : β) :
    dict_keys (dict_set l q v) =
      if q ∈ dict_keys l then dict_keys l else dict_keys l ++ [q] := by
  induction l with
  | nil => simp [dict_set, dict_keys]
  | cons e rest ih =>
    obtain ⟨k, w⟩ := e
    by_cases hk : k = q
    · subst hk
      simp only [dict_set, if_pos rfl, dict_keys_cons, List.mem_cons]
      simp [dict_keys_cons]
    · have hqk : ¬ q = k := fun h => hk h.symm
      simp only [dict_set, if_neg hk, dict_keys_cons, List.mem_cons]
      by_cases hq : q ∈ dict_keys rest
      · simp [hq, hqk, ih]
      · simp [hq, hqk, ih]

theorem dict_set_keys_nodup {β : Type} (l : List (String × β)) (q : String) (v : β) :
    (dict_keys l).Nodup → (dict_keys (dict_set l q v)).Nodup := by
  intro h
  rw [dict_keys_set]
  by_cases hq : q ∈ dict_keys l
  · simpa [hq] using h
  · simp [hq, List.nodup_append, h]

theorem mem_dict_set_eq {β : Type} (l : List (String × β)) (q : String) (v : β) :
    (dict_keys l).Nodup → ∀ p ∈ dict_set l q v, p.1 = q → p.2 = v := by
  induction l with
  | nil =>
    intro _ p hp _
    simp only [dict_set, List.mem_singleton] at hp
    subst hp
    rfl
  | cons e rest ih =>
    obtain ⟨k, w⟩ := e
    intro hnd p hp hq
    simp only [dict_keys, List.map_cons, List.nodup_cons] at hnd
    by_cases hk : k = q
    · subst hk
      simp only [dict_set, if_pos rfl] at hp
      rcases List.mem_cons.mp hp with h1 | h2
      · subst h1
        rfl
      · exfalso
        apply hnd.1
        have hmem : p.1 ∈ List.map Prod.fst rest := List.mem_map_of_mem Prod.fst h2
        rwa [hq] at hmem
    · simp only [dict_set, if_neg hk] at hp
      rcases List.mem_cons.mp hp with h1 | h2
      · exfalso
        apply hk
        rw [← hq, h1]
      · exact ih (by simpa [dict_keys] using hnd.2) p h2 hq

theorem dict_lookup_pop_self {β : Type} (l : List (String × β)) (q : String) :
    (dict_keys l).Nodup → dict_lookup (dict_pop l q) q = none := by
  induction l with
  | nil => intro _; rfl
  | cons e rest ih =>
    obtain ⟨k, w⟩ := e
    intro hnd
    simp only [dict_keys, List.map_cons, List.nodup_cons] at hnd
    by_cases hk : k = q
    · subst hk
      simp only [dict_pop, if_pos rfl]
      exact dict_lookup_not_mem rest k (by simpa [dict_keys] using hnd.1)
    · simp only [dict_pop, if_neg hk, dict_lookup, if_neg hk]
      exact ih hnd.2

theorem dict_lookup_some_mem {β : Type} (l : List (String × β)) (q : String) (v : β) :
    dict_lookup l q = some v → (q, v) ∈ l := by
  induction l with
  | nil => intro h; exact absurd h (by simp [dict_lookup])
  | cons e rest ih =>
    obtain ⟨k, w⟩ := e
    intro h
    by_cases hk : k = q
    · subst hk
      have h' : w = v := by simpa [dict_lookup] using h
      subst h'
      exact List.mem_cons_self _ _
    · simp only [dict_lookup, if_neg hk] at h
      exact List.mem_cons_of_mem _ (ih h)

theorem dict_lookup_none_keys {β : Type} (l : List (String × β)) (q : String) :
    dict_lookup l q = none → ∀ p ∈ l, p.1 ≠ q := by
  induction l with
  | nil => intro _ p hp; exact absurd hp (List.not_mem_nil p)
  | cons e rest ih =>
    obtain ⟨k, w⟩ := e
    intro h p hp
    by_cases hk : k = q
    · subst hk
      simp [dict_lookup] at h
    · simp only [dict_lookup, if_neg hk] at h
      rcases List.mem_cons.mp hp with h1 | h2
      · subst h1; exact hk
      · exact ih h p h2

/-! ## Helper lemma about the sanitizer -/

theorem py_replace_aux_no_space :
    ∀ (fuel : Nat) (l : List Char), l.length ≤ fuel →
      ((py_replace_aux fuel l [' '] ['_']).all fun c => !(c == ' ')) = true := by
  intro fuel
  induction fuel with
  | zero =>
    intro l hl
    have : l = [] := List.length_eq_zero.mp (Nat.le_zero.mp hl)
    subst this
    rfl
  | succ fuel ih =>
    intro l hl
    match l with
    | [] => rfl
    | c :: rest =>
      by_cases hc : c = ' '
      · subst hc
        have hcond : ([' '] ≠ [] ∧ [' '].isPrefixOf (' ' :: rest)) := by
          constructor
          · simp
          · simp [List.isPrefixOf]
        simp only [py_replace_aux, if_pos hcond, List.length_cons] at *
        simp only [List.drop_succ_cons, List.drop_zero, List.all_append, List.all_cons,
          List.all_nil]
        have : rest.length ≤ fuel := Nat.lt_succ_iff.mp hl
        simp [ih rest this]
      · have hcond : ¬ ([' '] ≠ [] ∧ [' '].isPrefixOf (c :: rest)) := by
          intro hcontra
          apply hc
          have := hcontra.2
          simp only [List.isPrefixOf, List.isPrefixOf_nil_left, Bool.and_true] at this
          exact (beq_iff_eq.mp this).symm
        simp only [py_replace_aux, if_neg hcond, List.all_cons]
        have hrest : rest.length ≤ fuel := by simpa using hl
        simp [ih rest hrest, hc]

/-! ## Characterization of the pipeline step -/

/-- The connection-state the loop body leaves behind after lines 145-148. -/
def resolved_state (s : List String) (st : PipeState) : PipeState :=
  ⟨resolve_src_code s st.srcCode,
   (resolve_tgt s st.tgtCode st.tgtTts).1,
   (resolve_tgt s st.tgtCode st.tgtTts).2.1⟩

/-- The events line 149 contributes: the fallback warning exactly when the
target code is unsupported. -/
def fallback_events (s : List String) (self : Nat) (st : PipeState) : List Event :=
  if (resolve_tgt s st.tgtCode st.tgtTts).2.2 then
    [Event.sendText self Payload.fallbackWarn]
  else []

theorem after_text_char (s : List String) (self : Nat) (st : PipeState)
    (text : String) (o : Oracle) :
    (∃ e, o.translate text (resolve_src_code s st.srcCode) (resolve_tgt s st.tgtCode st.tgtTts).1
          = Except.error e ∧
        after_text s self st text o =
          StepResult.cont (resolved_state s st)
            (fallback_events s self st ++
              [Event.sendText self (Payload.notice (Notice.translationFailed e))]))
  ∨ (∃ t e, o.translate text (resolve_src_code s st.srcCode) (resolve_tgt s st.tgtCode st.tgtTts).1
          = Except.ok t ∧
        o.tts t (resolve_tgt s st.tgtCode st.tgtTts).2.1 = Except.error e ∧
        after_text s self st text o =
          StepResult.cont (resolved_state s st)
            (fallback_events s self st ++
              [Event.sendText self (Payload.textAck t),
               Event.sendText self (Payload.notice (Notice.ttsFailed e))]))
  ∨ (∃ t b, o.translate text (resolve_src_code s st.srcCode) (resolve_tgt s st.tgtCode st.tgtTts).1
          = Except.ok t ∧
        o.tts t (resolve_tgt s st.tgtCode st.tgtTts).2.1 = Except.ok b ∧
        after_text s self st text o =
          StepResult.cont (resolved_state s st)
            (fallback_events s self st ++
              [Event.sendText self (Payload.textAck t),
               Event.sendBytes self b])) := by
  cases htr : o.translate text (resolve_src_code s st.srcCode) (resolve_tgt s st.tgtCode st.tgtTts).1 with
  | error e =>
    left
    refine ⟨e, rfl, ?_⟩
    simp only [after_text, resolved_state, fallback_events]
    rw [htr]
  | ok t =>
    cases htts : o.tts t (resolve_tgt s st.tgtCode st.tgtTts).2.1 with
    | error e =>
      right; left
      refine ⟨t, e, rfl, htts, ?_⟩
      simp only [after_text, resolved_state, fallback_events, htr, htts]
    | ok b =>
      right; right
      refine ⟨t, b, rfl, htts, ?_⟩
      simp only [after_text, resolved_state, fallback_events, htr, htts]

theorem translate_ws_step_char (s : List String) (self : Nat) (st : PipeState)
    (frame : Frame) (o : Oracle) :
    (frame_text frame o.decode = TextResult.crash ∧
        translate_ws_step s self st frame o = StepResult.crash [])
  ∨ (∃ n, frame_text frame o.decode = TextResult.reply n ∧
        translate_ws_step s self st frame o =
          StepResult.cont st [Event.sendText self (Payload.notice n)])
  ∨ (∃ d, frame_text frame o.decode = TextResult.got d ∧
        translate_ws_step s self st frame o = after_text s self st d o) := by
  cases hft : frame_text frame o.decode with
  | crash => exact Or.inl ⟨rfl, by simp [translate_ws_step, hft]⟩
  | reply n => exact Or.inr (Or.inl ⟨n, rfl, by simp [translate_ws_step, hft]⟩)
  | got d => exact Or.inr (Or.inr ⟨d, rfl, by simp [translate_ws_step, hft]⟩)

theorem fallback_events_no_bytes (s : List String) (self : Nat) (st : PipeState)
    (dst : Nat) (b : List Nat) :
    Event.sendBytes dst b ∈ fallback_events s self st → False := by
  unfold fallback_events
  split <;> simp

/-! ## Claim theorems -/

/-- C1: the claim says every malformed or protocol-violating frame is
recovered with exactly one notice and a continued loop.  The code breaks
this: a frame that is valid JSON of shape `(type := "text")` without a
`"data"` key reaches `payload["data"]` at line 133, whose `KeyError` is
not caught by the `except json.JSONDecodeError` handler of line 138, so
the receive loop exits with no notice sent and the session dies.  This
theorem evaluates the step on that failing frame. -/
theorem translate_ws_missing_data_crashes :
    translate_ws_step ["hi", "en"] 1 ⟨"en", "hi", "hi"⟩
      (Frame.text (TextParse.object (some "text") none)) demo_oracle
    = StepResult.crash [] := by decide

/-- C2 counterexample: with registry entries "a" (handle 1, the sender)
and "b" (handle 2), a fully successful message from "a" does not deliver
the synthesized audio to every registered device other than the sender:
the `all` over the registry, requiring each non-sender entry's handle to
be among the audio recipients, evaluates to `false` (line 164 sends the
audio on `websocket`, the sender's own handle, only). -/
theorem translate_ws_no_broadcast_cex :
    ((dict_set (dict_set ([] : List (String × Nat)) "a" 1) "b" 2).all
      (fun p => p.1 == "a" ||
        (audio_targets
          ((translate_ws_step ["hi", "en"] 1 ⟨"en", "hi", "hi"⟩
            (Frame.text (TextParse.object (some "text") (some "hello")))
            demo_oracle).events)).contains p.2))
    = false := by decide

/-- C2 as amended: the pipeline is the single-recipient variant — every
synthesized-audio delivery of a loop iteration targets the sender's own
handle, and when translation and synthesis both succeed the audio is
delivered to the sender. -/
theorem translate_ws_audio_single_recipient (s : List String) (self : Nat)
    (st : PipeState) (frame : Frame) (o : Oracle) :
    (∀ dst b, Event.sendBytes dst b ∈ (translate_ws_step s self st frame o).events →
        dst = self)
  ∧ (∀ d t b, frame_text frame o.decode = TextResult.got d →
      o.translate d (resolve_src_code s st.srcCode) (resolve_tgt s st.tgtCode st.tgtTts).1
        = Except.ok t →
      o.tts t (resolve_tgt s st.tgtCode st.tgtTts).2.1 = Except.ok b →
      Event.sendBytes self b ∈ (translate_ws_step s self st frame o).events) := by
  constructor
  · intro dst b hmem
    rcases translate_ws_step_char s self st frame o with
      ⟨_, heq⟩ | ⟨n, _, heq⟩ | ⟨d, _, heq⟩
    · rw [heq] at hmem
      simp [StepResult.events] at hmem
    · rw [heq] at hmem
      simp [StepResult.events] at hmem
    · rw [heq] at hmem
      rcases after_text_char s self st d o with
        ⟨e, _, haeq⟩ | ⟨t, e, _, _, haeq⟩ | ⟨t, b', _, _, haeq⟩ <;>
          rw [haeq] at hmem <;>
          simp only [StepResult.events, List.mem_append] at hmem
      · rcases hmem with h | h
        · exact (fallback_events_no_bytes s self st dst b h).elim
        · simp at h
      · rcases hmem with h | h
        · exact (fallback_events_no_bytes s self st dst b h).elim
        · simp at h
      · rcases hmem with h | h
        · exact (fallback_events_no_bytes s self st dst b h).elim
        · simp at h
          exact h.1
  · intro d t b hd htr htts
    rcases translate_ws_step_char s self st frame o with
      ⟨hft, _⟩ | ⟨n, hft, _⟩ | ⟨d', hft, heq⟩
    · rw [hd] at hft
      simp at hft
    · rw [hd] at hft
      simp at hft
    · rw [hd] at hft
      have hdd : d = d' := by
        injection hft
      subst hdd
      rw [heq]
      rcases after_text_char s self st d o with
        ⟨e, htr', _⟩ | ⟨t', e, htr', htts', _⟩ | ⟨t', b', htr', htts', haeq⟩
      · rw [htr] at htr'
        simp at htr'
      · rw [htr] at htr'
        have : t = t' := by injection htr'
        subst this
        rw [htts] at htts'
        simp at htts'
      · rw [htr] at htr'
        have : t = t' := by injection htr'
        subst this
        rw [htts] at htts'
        have : b = b' := by injection htts'
        subst this
        rw [haeq]
        simp [StepResult.events]

/-- Witness for the amended C2 theorem at a concrete run: handle 1 is the
sender, translation and synthesis succeed, and the single audio delivery
targets handle 1 with the synthesized bytes. -/
theorem translate_ws_audio_single_recipient_wit :
    (1 : Nat) = 1 ∧
    Event.sendBytes 1 [0] ∈
      (translate_ws_step ["hi", "en"] 1 ⟨"en", "hi", "hi"⟩
        (Frame.text (TextParse.object (some "text") (some "hello")))
        demo_oracle).events :=
  ⟨(translate_ws_audio_single_recipient ["hi", "en"] 1 ⟨"en", "hi", "hi"⟩
      (Frame.text (TextParse.object (some "text") (some "hello"))) demo_oracle).1
      1 [0] (by decide),
   (translate_ws_audio_single_recipient ["hi", "en"] 1 ⟨"en", "hi", "hi"⟩
      (Frame.text (TextParse.object (some "text") (some "hello"))) demo_oracle).2
      "hello" "hello" [0] rfl rfl rfl⟩

/-- C3 counterexample: profiles Bhojpuri (translation code "bho") to
English with the adapter supporting only "hi" and "en".  The source side
falls back ("bho" becomes "hi" in the resulting state), yet the run emits
no fallback warning — lines 145-146 reassign `src_code` silently, only
the target branch of lines 147-149 sends the warning.  The claim requires
a warning whenever either side changes. -/
theorem fallback_warning_src_silent_cex :
    translate_ws_step ["hi", "en"] 1 ⟨"bho", "en", "en"⟩
      (Frame.text (TextParse.object (some "text") (some "hello"))) demo_oracle
    = StepResult.cont ⟨"hi", "en", "en"⟩
        [Event.sendText 1 (Payload.textAck "hello"), Event.sendBytes 1 [0]] := by decide

/-- C3 as amended: for a message that reaches the resolution step, the
fallback warning is emitted if and only if the target profile's
translation code is unsupported (source-side fallback is silent), and
when emitted it precedes every other delivery of the message. -/
theorem fallback_warning_iff_tgt_unsupported (s : List String) (self : Nat)
    (st : PipeState) (frame : Frame) (o : Oracle) (d : String)
    (hd : frame_text frame o.decode = TextResult.got d) :
    (Event.sendText self Payload.fallbackWarn ∈ (translate_ws_step s self st frame o).events
        ↔ st.tgtCode ∉ s)
  ∧ (st.tgtCode ∉ s →
      (translate_ws_step s self st frame o).events.head? =
        some (Event.sendText self Payload.fallbackWarn)) := by
  have hstep : translate_ws_step s self st frame o = after_text s self st d o := by
    simp [translate_ws_step, hd]
  rw [hstep]
  rcases after_text_char s self st d o with
    ⟨e, _, haeq⟩ | ⟨t, e, _, _, haeq⟩ | ⟨t, b, _, _, haeq⟩ <;>
    rw [haeq] <;>
    by_cases hw : st.tgtCode ∈ s <;>
    simp [StepResult.events, fallback_events, resolve_tgt, hw]

/-- Witness for the amended C3 theorem: with the adapter supporting only
"en" and an unsupported target code "xx", the warning is emitted and is
the first delivery of the message. -/
theorem fallback_warning_iff_tgt_unsupported_wit :
    Event.sendText 1 Payload.fallbackWarn ∈
      (translate_ws_step ["en"] 1 ⟨"en", "xx", "yy"⟩
        (Frame.text (TextParse.object (some "text") (some "t"))) demo_oracle).events
  ∧ (translate_ws_step ["en"] 1 ⟨"en", "xx", "yy"⟩
      (Frame.text (TextParse.object (some "text") (some "t"))) demo_oracle).events.head?
      = some (Event.sendText 1 Payload.fallbackWarn) :=
  ⟨(fallback_warning_iff_tgt_unsupported ["en"] 1 ⟨"en", "xx", "yy"⟩
      (Frame.text (TextParse.object (some "text") (some "t"))) demo_oracle "t" rfl).1.mpr
      (by decide),
   (fallback_warning_iff_tgt_unsupported ["en"] 1 ⟨"en", "xx", "yy"⟩
      (Frame.text (TextParse.object (some "text") (some "t"))) demo_oracle "t" rfl).2
      (by decide)⟩

/-- C4: in every loop iteration, any synthesized-audio delivery is
preceded by the structured translated-text acknowledgment (the scan
accepts the trace), and whenever the translation stage succeeds the
acknowledgment is delivered — for every synthesis outcome, since the
oracle's `tts` component is unconstrained. -/
theorem text_ack_precedes_audio (s : List String) (self : Nat) (st : PipeState)
    (frame : Frame) (o : Oracle) :
    ack_seen_scan false (translate_ws_step s self st frame o).events = true
  ∧ (∀ d t, frame_text frame o.decode = TextResult.got d →
      o.translate d (resolve_src_code s st.srcCode) (resolve_tgt s st.tgtCode st.tgtTts).1
        = Except.ok t →
      Event.sendText self (Payload.textAck t) ∈ (translate_ws_step s self st frame o).events) := by
  constructor
  · rcases translate_ws_step_char s self st frame o with
      ⟨_, heq⟩ | ⟨n, _, heq⟩ | ⟨d, _, heq⟩
    · rw [heq]
      simp [StepResult.events, ack_seen_scan]
    · rw [heq]
      simp [StepResult.events, ack_seen_scan]
    · rw [heq]
      rcases after_text_char s self st d o with
        ⟨e, _, haeq⟩ | ⟨t, e, _, _, haeq⟩ | ⟨t, b, _, _, haeq⟩ <;>
        rw [haeq] <;>
        by_cases hw : st.tgtCode ∈ s <;>
        simp [StepResult.events, fallback_events, resolve_tgt, hw, ack_seen_scan]
  · intro d t hd htr
    rcases translate_ws_step_char s self st frame o with
      ⟨hft, _⟩ | ⟨n, hft, _⟩ | ⟨d', hft, heq⟩
    · rw [hd] at hft
      simp at hft
    · rw [hd] at hft
      simp at hft
    · rw [hd] at hft
      have hdd : d = d' := by injection hft
      subst hdd
      rw [heq]
      rcases after_text_char s self st d o with
        ⟨e, htr', _⟩ | ⟨t', e, htr', _, haeq⟩ | ⟨t', b, htr', _, haeq⟩
      · rw [htr] at htr'
        simp at htr'
      · rw [htr] at htr'
        have : t = t' := by injection htr'
        subst this
        rw [haeq]
        simp [StepResult.events]
      · rw [htr] at htr'
        have : t = t' := by injection htr'
        subst this
        rw [haeq]
        simp [StepResult.events]

/-- Witness for C4 at a concrete successful run: the scan accepts the
trace and the acknowledgment of the translated text is delivered. -/
theorem text_ack_precedes_audio_wit :
    ack_seen_scan false
      (translate_ws_step ["hi", "en"] 1 ⟨"hi", "en", "en"⟩
        (Frame.text (TextParse.object (some "text") (some "namaste")))
        demo_oracle).events = true
  ∧ Event.sendText 1 (Payload.textAck "namaste") ∈
      (translate_ws_step ["hi", "en"] 1 ⟨"hi", "en", "en"⟩
        (Frame.text (TextParse.object (some "text") (some "namaste")))
        demo_oracle).events :=
  ⟨(text_ack_precedes_audio ["hi", "en"] 1 ⟨"hi", "en", "en"⟩
      (Frame.text (TextParse.object (some "text") (some "namaste"))) demo_oracle).1,
   (text_ack_precedes_audio ["hi", "en"] 1 ⟨"hi", "en", "en"⟩
      (Frame.text (TextParse.object (some "text") (some "namaste"))) demo_oracle).2
      "namaste" "namaste" rfl rfl⟩

/-- C5: registering twice under the same device id leaves the registry
mapping the id to the second handle only (any entry holding the id holds
the second handle), and the accept phase of a connection sends no event
to any connection — the first handle is neither closed nor signalled. -/
theorem registry_last_writer_wins (reg : List (String × Nat)) (id : String)
    (h1 h2 : Nat) (hnd : (dict_keys reg).Nodup) :
    dict_lookup (dict_set (dict_set reg id h1) id h2) id = some h2
  ∧ (∀ p ∈ dict_set (dict_set reg id h1) id h2, p.1 = id → p.2 = h2)
  ∧ (∀ (reg2 : List (String × Nat)) (src tgt raw : String) (h : Nat),
      (translate_ws_accept reg2 src tgt raw h).2.2 = []) :=
  ⟨dict_lookup_set_self _ _ _,
   mem_dict_set_eq _ _ _ (dict_set_keys_nodup _ _ _ hnd),
   fun _ _ _ _ _ => rfl⟩

/-- Witness for C5: a concrete registry with an unrelated entry, the same
id registered with handle 3 then handle 4; the lookup yields handle 4. -/
theorem registry_last_writer_wins_wit :
    dict_lookup (dict_set (dict_set [("x", 5)] "a" 3) "a" 4) "a" = some 4 :=
  (registry_last_writer_wins [("x", 5)] "a" 3 4 (by decide)).1

/-- C6: the `finally` block pops the registry entry by key,
unconditionally — in particular after a same-id re-registration, the
older session's cleanup removes the newer connection's entry, leaving
the id registered nowhere. -/
theorem cleanup_removes_registry_key (reg : List (String × Nat)) (id : String)
    (h1 h2 : Nat) (hnd : (dict_keys reg).Nodup) :
    dict_lookup (translate_ws_cleanup (dict_set (dict_set reg id h1) id h2) id) id = none
  ∧ ∀ (reg2 : List (String × Nat)), (dict_keys reg2).Nodup →
      dict_lookup (translate_ws_cleanup reg2 id) id = none := by
  constructor
  · exact dict_lookup_pop_self _ _
      (dict_set_keys_nodup _ _ _ (dict_set_keys_nodup _ _ _ hnd))
  · intro reg2 h
    exact dict_lookup_pop_self _ _ h

/-- Witness for C6 at a concrete registry. -/
theorem cleanup_removes_registry_key_wit :
    dict_lookup (translate_ws_cleanup (dict_set (dict_set [("x", 5)] "a" 3) "a" 4) "a") "a"
      = none :=
  (cleanup_removes_registry_key [("x", 5)] "a" 3 4 (by decide)).1

/-- C7: the language table has pairwise-distinct display names, and
resolution is total: every name yields either its own table entry
(exact match) or the fixed Hindi default profile, silently. -/
theorem language_map_get_total (name : String) :
    (dict_keys language_map).Nodup
  ∧ ((name, language_map_get name) ∈ language_map
      ∨ ((∀ p ∈ language_map, p.1 ≠ name) ∧
          language_map_get name = ("hi-IN", "hi", "hi"))) := by
  refine ⟨by decide, ?_⟩
  cases h : dict_lookup language_map name with
  | none =>
    right
    refine ⟨dict_lookup_none_keys _ _ h, ?_⟩
    simp [language_map_get, h, default_profile]
  | some p =>
    left
    have hm := dict_lookup_some_mem _ _ _ h
    have hg : language_map_get name = p := by simp [language_map_get, h]
    rw [hg]
    exact hm

/-- Witness for C7 applied at a concrete display name. -/
theorem language_map_get_total_wit : (dict_keys language_map).Nodup :=
  (language_map_get_total "Bhojpuri").1

/-! ## Remaining helper lemmas for the temp-file model -/

theorem os_remove_mem (fs : List String) (p : String) (h : p ∈ fs) :
    os_remove fs p = some (fs_delete fs p) := by
  simp [os_remove, h]

theorem os_remove_not_mem (fs : List String) (p : String) (h : p ∉ fs) :
    os_remove fs p = none := by
  simp [os_remove, h]

theorem fs_delete_head (fs : List String) (p : String) :
    fs_delete (p :: fs) p = fs := by
  simp [fs_delete]

/-- C8: for every outcome of the speech-to-text block — pydub export
raising, the recognizer raising, or success — the two temporary paths are
gone afterwards and the file system is exactly as before the message. -/
theorem stt_temp_files_cleaned (fs : List String) (webm : String)
    (outcome : DecodeOutcome) (h1 : webm ∉ fs) (h2 : wav_path_of webm ∉ fs) :
    stt_step_fs fs webm outcome = fs
  ∧ webm ∉ stt_step_fs fs webm outcome
  ∧ wav_path_of webm ∉ stt_step_fs fs webm outcome := by
  have hcw : fs_create fs webm = webm :: fs := by simp [fs_create, h1]
  have hclean1 : remove_temp_files (webm :: fs) webm (wav_path_of webm) = fs := by
    simp only [remove_temp_files, os_remove_mem (webm :: fs) webm (List.mem_cons_self webm fs),
      fs_delete_head, os_remove_not_mem fs (wav_path_of webm) h2]
  have main : stt_step_fs fs webm outcome = fs := by
    by_cases hww : wav_path_of webm = webm
    · have hcw2 : fs_create (webm :: fs) (wav_path_of webm) = webm :: fs := by
        simp [fs_create, hww]
      cases outcome <;>
        simp only [stt_step_fs, hcw, hcw2, hclean1]
    · have hwmem : wav_path_of webm ∉ webm :: fs := by
        simp only [List.mem_cons, not_or]
        exact ⟨hww, h2⟩
      have hcw2 : fs_create (webm :: fs) (wav_path_of webm) =
          wav_path_of webm :: webm :: fs := by
        simp [fs_create, hwmem]
      have hmem1 : webm ∈ wav_path_of webm :: webm :: fs := by simp
      have hdel1 : fs_delete (wav_path_of webm :: webm :: fs) webm =
          wav_path_of webm :: fs := by
        simp [fs_delete, hww]
      have hmem2 : wav_path_of webm ∈ wav_path_of webm :: fs :=
        List.mem_cons_self _ _
      have hclean2 : remove_temp_files (wav_path_of webm :: webm :: fs) webm
          (wav_path_of webm) = fs := by
        simp only [remove_temp_files, os_remove_mem _ _ hmem1, hdel1,
          os_remove_mem _ _ hmem2, fs_delete_head]
      cases outcome <;>
        simp only [stt_step_fs, hcw, hcw2, hclean1, hclean2]
  refine ⟨main, ?_, ?_⟩
  · rw [main]
    exact h1
  · rw [main]
    exact h2

/-- Witness for C8 at a concrete file system and a raising recognizer. -/
theorem stt_temp_files_cleaned_wit :
    stt_step_fs ["keep"] "/tmp/a.webm" (DecodeOutcome.recognizeFail "no speech")
      = ["keep"] :=
  (stt_temp_files_cleaned ["keep"] "/tmp/a.webm"
    (DecodeOutcome.recognizeFail "no speech") (by decide) (by decide)).1

/-- C9: the one-shot endpoint resolves both languages exactly as the
pipeline does (`language_map.get` with the Hindi default, then forcing
unsupported codes to "hi"), and for every adapter outcome it returns a
response value — the translated text on success, the error field on
failure — so no raise reaches the caller. -/
theorem translate_only_never_raises (supported_langs : List String)
    (translate : String → String → String → Except String String)
    (text source_lang target_lang : String) :
    (∀ t, translate text
        (resolve_src_code supported_langs (language_map_get source_lang).2.2)
        (resolve_tgt supported_langs (language_map_get target_lang).2.2
          (language_map_get target_lang).2.1).1 = Except.ok t →
      translate_only supported_langs translate text source_lang target_lang
        = RestResponse.success t)
  ∧ (∀ e, translate text
        (resolve_src_code supported_langs (language_map_get source_lang).2.2)
        (resolve_tgt supported_langs (language_map_get target_lang).2.2
          (language_map_get target_lang).2.1).1 = Except.error e →
      translate_only supported_langs translate text source_lang target_lang
        = RestResponse.failure ("Translation failed: " ++ e)) := by
  have hsrc : resolve_src_code supported_langs (language_map_get source_lang).2.2
      = (if (language_map_get source_lang).2.2 ∈ supported_langs then
          (language_map_get source_lang).2.2 else "hi") := rfl
  have htgt : (resolve_tgt supported_langs (language_map_get target_lang).2.2
        (language_map_get target_lang).2.1).1
      = (if (language_map_get target_lang).2.2 ∈ supported_langs then
          (language_map_get target_lang).2.2 else "hi") := by
    by_cases hc : (language_map_get target_lang).2.2 ∈ supported_langs <;>
      simp [resolve_tgt, hc]
  constructor
  · intro t ht
    rw [hsrc, htgt] at ht
    simp only [translate_only]
    rw [ht]
  · intro e he
    rw [hsrc, htgt] at he
    simp only [translate_only]
    rw [he]

/-- Witness for C9: both adapter outcomes at concrete inputs. -/
theorem translate_only_never_raises_wit :
    translate_only ["hi"] (fun _ _ _ => Except.ok "bonjour") "hello" "English" "Hindi"
      = RestResponse.success "bonjour"
  ∧ translate_only ["hi"] (fun _ _ _ => Except.error "boom") "hello" "English" "Hindi"
      = RestResponse.failure ("Translation failed: " ++ "boom") :=
  ⟨(translate_only_never_raises ["hi"] (fun _ _ _ => Except.ok "bonjour")
      "hello" "English" "Hindi").1 "bonjour" rfl,
   (translate_only_never_raises ["hi"] (fun _ _ _ => Except.error "boom")
      "hello" "English" "Hindi").2 "boom" rfl⟩

/-- C10 counterexample: the identifier "a&#9;b" (with a tab) passes the
sanitizer unchanged, and the tab is a whitespace character — so a
registry key can contain whitespace, contrary to the claim; line 87
replaces only the space character. -/
theorem sanitize_device_id_tab_cex :
    sanitize_device_id "a\tb" = "a\tb"
  ∧ Char.isWhitespace '\t' = true
  ∧ (sanitize_device_id "a\tb").data.contains '\t' = true := by
  refine ⟨by decide, by decide, by decide⟩

/-- C10 as amended: the sanitizer replaces every space character (U+0020)
with an underscore, so the key under which the accept phase registers the
connection contains no space character; other whitespace is kept. -/
theorem sanitize_device_id_no_space (raw : String) :
    ((sanitize_device_id raw).data.all fun c => !(c == ' ')) = true
  ∧ ∀ (reg : List (String × Nat)) (src tgt : String) (h : Nat),
      (translate_ws_accept reg src tgt raw h).1 =
        dict_set reg (sanitize_device_id raw) h := by
  constructor
  · unfold sanitize_device_id py_str_replace
    have hpat : (" " : String).data = [' '] := rfl
    have hrep : ("_" : String).data = ['_'] := rfl
    rw [hpat, hrep]
    exact py_replace_aux_no_space _ _ (le_refl _)
  · intro reg src tgt h
    rfl

/-- Witness for the amended C10 theorem at a concrete identifier with a
space. -/
theorem sanitize_device_id_no_space_wit :
    ((sanitize_device_id "a b").data.all fun c => !(c == ' ')) = true :=
  (sanitize_device_id_no_space "a b").1
